import Mathlib

/-!
Verification of the BatallaNaval client and protocol model.

Shallow embedding of the browser client of the naval-combat game:
the coordinate codec, the placement validator, the random fleet
generator, the outgoing WebSocket messages, the client game state,
and the WebSocket handshake accept-token computation.

JavaScript numbers that hold board indices are modelled as `Int`
(the code compares them against 0 and the board size with `<` and
`>=`); strings are Lean `String`; a JS object literal sent on the
wire is modelled as the ordered association list of its fields.
-/

/-- A board cell, the shape of the JS literals produced by
`calculateShipPositions` and consumed by `isValidPlacement`. -/
structure Pos where
  x : Int
  y : Int
deriving DecidableEq

/-- An entry of `GameState.placement.placedShips` as consumed by
`API.isValidPlacement`, which reads only its `positions` field. -/
structure PlacedShip where
  positions : List Pos
deriving DecidableEq

/-- One ship record of `GameState.placement.ships` (src/client/js/state.js). -/
structure Ship where
  id : String
  name : String
  type : String
  length : Nat
  placed : Bool
  orientation : String
deriving DecidableEq

/-- The fleet literal assigned to `GameState.placement.ships`
in src/client/js/state.js, lines 24-30. -/
def initialShips : List Ship :=
  [ ⟨"carrier", "Portaaviones", "AIRCRAFT_CARRIER", 5, false, "horizontal"⟩,
    ⟨"battleship", "Acorazado", "BATTLESHIP", 4, false, "horizontal"⟩,
    ⟨"cruiser", "Crucero", "CRUISER", 3, false, "horizontal"⟩,
    ⟨"destroyer", "Destructor", "DESTROYER", 3, false, "horizontal"⟩,
    ⟨"submarine", "Submarino", "SUBMARINE", 2, false, "horizontal"⟩ ]

/-- The `GameState.placement` object of src/client/js/state.js. -/
structure Placement where
  selectedShip : Option String
  orientation : String
  placedShips : List PlacedShip
  ships : List Ship
deriving DecidableEq

/-- The fresh `GameState.placement` value of src/client/js/state.js. -/
def initialPlacement : Placement :=
  { selectedShip := none
    orientation := "horizontal"
    placedShips := []
    ships := initialShips }

/-- `GameState.rotateShip` (src/client/js/state.js, lines 140-143):
flips `placement.orientation` with a conditional expression and
leaves every other field of the state alone. -/
def rotateShip (p : Placement) : Placement :=
  { p with orientation :=
      if p.orientation = "horizontal" then "vertical" else "horizontal" }

/-- `GameState.resetPlacement` (src/client/js/state.js, lines 171-178):
clears the selection, resets the orientation, empties `placedShips`
and clears every ship's `placed` flag. -/
def resetPlacement (p : Placement) : Placement :=
  { p with
      selectedShip := none
      orientation := "horizontal"
      placedShips := []
      ships := p.ships.map (fun s => { s with placed := false }) }

/-- `GameState.boardSize` (src/client/js/state.js, line 17). -/
def boardSize : Nat := 10

/-- The grid `GameState.initDefenseBoard` assigns to
`this.game.defenseBoard`: `Array(boardSize).fill(null)` mapped to
rows of `Array(boardSize).fill('empty')`. -/
def initDefenseBoard : List (List String) :=
  (List.replicate boardSize (none : Option Unit)).map
    (fun _ => List.replicate boardSize "empty")

/-- The grid `GameState.initAttackBoard` assigns to
`this.game.attackBoard`, built exactly like the defense board. -/
def initAttackBoard : List (List String) :=
  (List.replicate boardSize (none : Option Unit)).map
    (fun _ => List.replicate boardSize "empty")

namespace Main

/-- `calculateShipPositions` of the main module (src/unnamed/part_000,
lines 465-477): pushes, for i = 0..length-1, the cell
(startX+i, startY) when the orientation is horizontal and
(startX, startY+i) otherwise. -/
def calculateShipPositions (startX startY : Int) (length : Nat)
    (orientation : String) : List Pos :=
  (List.range length).map (fun (i : Nat) =>
    if orientation = "horizontal" then
      ⟨startX + (i : Int), startY⟩
    else
      ⟨startX, startY + (i : Int)⟩)

end Main

namespace Game

/-- `calculateShipPositions` of the game module (src/unnamed/part_001,
lines 204-216), a second copy of the same loop. -/
def calculateShipPositions (startX startY : Int) (length : Nat)
    (orientation : String) : List Pos :=
  (List.range length).map (fun (i : Nat) =>
    if orientation = "horizontal" then
      ⟨startX + (i : Int), startY⟩
    else
      ⟨startX, startY + (i : Int)⟩)

end Game

/-- `API.isValidPlacement` (src/unnamed/part_001, lines 790-810):
returns false as soon as some candidate cell is outside the board or
equal to a cell of an already placed ship, true otherwise. -/
def isValidPlacement (positions : List Pos) (existingShips : List PlacedShip)
    (boardSize : Int) : Bool :=
  if positions.any (fun pos =>
      decide (pos.x < 0) || decide (pos.x ≥ boardSize) ||
      decide (pos.y < 0) || decide (pos.y ≥ boardSize)) then
    false
  else if existingShips.any (fun existingShip =>
      existingShip.positions.any (fun existingPos =>
        positions.any (fun newPos =>
          decide (existingPos.x = newPos.x) && decide (existingPos.y = newPos.y)))) then
    false
  else
    true

/-- `API.formatCoordinate` (src/unnamed/part_001, lines 829-833):
`String.fromCharCode(65 + x)` followed by the decimal rendering of
`y + 1`. -/
def formatCoordinate (x y : Int) : String :=
  String.mk [Char.ofNat (65 + x).toNat] ++ toString (y + 1)

/-- The value `parseInt` yields on the all-digit capture group of
`API.parseCoordinate`. -/
def digitsVal (l : List Char) : Nat :=
  l.foldl (fun a c => a * 10 + (c.toNat - 48)) 0

/-- `API.parseCoordinate` (src/unnamed/part_001, lines 815-824):
matches the anchored case-insensitive pattern of one letter A-J
followed by one or more digits; on a match returns the upper-cased
letter's char code minus 65 and the parsed number minus 1, else null. -/
def parseCoordinate (coord : String) : Option Pos :=
  match coord.data with
  | c :: d :: rest =>
    if ('A' ≤ c.toUpper ∧ c.toUpper ≤ 'J') ∧ (d :: rest).all Char.isDigit then
      some ⟨(c.toUpper.toNat : Int) - 65, (digitsVal (d :: rest) : Int) - 1⟩
    else
      none
  | _ => none

/-- The object literal `API.sendAttack` passes to `this.send`
(src/unnamed/part_001, lines 703-708), as its ordered field list;
the `coordinate` argument is the string the caller built with
`API.formatCoordinate`. -/
def sendAttackMsg (matchId playerId coordinate : String) :
    List (String × String) :=
  [ ("type", "attack"),
    ("gameId", matchId),
    ("playerId", playerId),
    ("coordinate", coordinate) ]

/-- The object literal `API.findMatch` passes to `this.send`
(src/unnamed/part_001, lines 614-618); `now` is the `Date.now()`
value embedded in the generated player id. -/
def findMatchMsg (now : Nat) (playerName : String) :
    List (String × String) :=
  [ ("type", "join_game"),
    ("playerId", "player_" ++ toString now),
    ("playerName", playerName) ]

/-- Field access on a message modelled as an ordered field list:
the value at the first occurrence of the key, if any. -/
def lookupField (k : String) : List (String × String) → Option String
  | [] => none
  | (k2, v) :: rest => if k2 = k then some v else lookupField k rest

/-- One ship's worth of random draws inside
`API.generateRandomPlacement` and `API._generateRandomPositions`:
`isHorizontal` is the outcome of the test Math.random() > 0.5, and
`rx`, `ry` are the already-floored values assigned to `startX` and
`startY` by the two Math.floor(Math.random() * k) expressions. -/
structure RandChoice where
  isHorizontal : Bool
  rx : Int
  ry : Int
deriving DecidableEq

/-- The set of (startX, startY) pairs the two
Math.floor(Math.random() * k) draws of `API._generateRandomPositions`
can actually produce for a ship of the given length: Math.random()
lies in [0,1), so for a positive factor k the floored product ranges
over 0..k-1; the factor is boardSize - length on the axis the ship
extends along and boardSize on the other axis. -/
def choiceInRange (length : Nat) (boardSize : Int) (c : RandChoice) : Prop :=
  if c.isHorizontal then
    0 ≤ c.rx ∧ c.rx < boardSize - length ∧ 0 ≤ c.ry ∧ c.ry < boardSize
  else
    0 ≤ c.rx ∧ c.rx < boardSize ∧ 0 ≤ c.ry ∧ c.ry < boardSize - length

instance (length : Nat) (boardSize : Int) (c : RandChoice) :
    Decidable (choiceInRange length boardSize c) := by
  unfold choiceInRange; infer_instance

/-- `API._generateRandomPositions` (src/unnamed/part_001, lines
764-785) with its two random draws made explicit as `rx`, `ry`:
pushes, for i = 0..length-1, (startX+i, startY) in the horizontal
branch and (startX, startY+i) in the vertical branch. -/
def generateRandomPositions (length : Nat) (orientation : String)
    (rx ry : Int) : List Pos :=
  if orientation = "horizontal" then
    (List.range length).map (fun (i : Nat) => ⟨rx + (i : Int), ry⟩)
  else
    (List.range length).map (fun (i : Nat) => ⟨rx, ry + (i : Int)⟩)

/-- One element of the `ships` array `API.generateRandomPlacement`
resolves with. -/
structure GenShip where
  id : String
  type : String
  positions : List Pos
  orientation : String
deriving DecidableEq

/-- `API.generateRandomPlacement` (src/unnamed/part_001, lines
733-758) with the per-ship random draws made explicit: maps over
`GameState.placement.ships`, chooses an orientation from the coin
flip, and builds each ship's cells independently with
`API._generateRandomPositions`. No cross-ship check is performed. -/
def generateRandomPlacement (choices : List RandChoice) : List GenShip :=
  (initialShips.zip choices).map (fun sc =>
    let orientation := if sc.2.isHorizontal then "horizontal" else "vertical"
    { id := sc.1.id
      type := sc.1.type
      positions := generateRandomPositions sc.1.length orientation sc.2.rx sc.2.ry
      orientation := orientation })

/-- A concrete, attainable outcome of the random draws: every coin
flip lands on horizontal and every floored draw is 0, so every ship
starts at the cell (0, 0). -/
def badChoices : List RandChoice :=
  [⟨true, 0, 0⟩, ⟨true, 0, 0⟩, ⟨true, 0, 0⟩, ⟨true, 0, 0⟩, ⟨true, 0, 0⟩]

/-! ## WebSocket handshake accept token

The server implementation itself is not part of the source tree;
the definitions below are modelled from the spec, which fixes the
computation as base64(SHA1(key ++ RFC magic GUID)), and from the
handshake test snippet in src/server/README.md, lines 262-266. -/

/-- The RFC 6455 magic GUID appended to the client key. -/
def magicGUID : String := "258EAFA5-E914-47DA-95CA-C5AB0DC85B11"

/-- The byte sequence of an ASCII string (handshake keys and the
magic GUID are ASCII, where UTF-8 bytes and char codes coincide). -/
def strBytes (s : String) : List Nat := s.data.map Char.toNat

/-- Truncation to a 32-bit word. -/
def w32 (x : Nat) : Nat := x % 4294967296

/-- 32-bit left rotation. -/
def rotl (n x : Nat) : Nat := (x <<< n ||| x >>> (32 - n)) % 4294967296

/-- The `k` low-order bytes of `n`, big-endian. -/
def beBytes : Nat → Nat → List Nat
  | 0, _ => []
  | k + 1, n => beBytes k (n / 256) ++ [n % 256]

/-- Big-endian 32-bit words from a byte list. -/
def bytesToWords : List Nat → List Nat
  | a :: b :: c :: d :: rest =>
      (((a * 256 + b) * 256 + c) * 256 + d) :: bytesToWords rest
  | _ => []

/-- SHA-1 padding: a 0x80 byte, zero bytes up to 56 mod 64, then the
bit length as 8 big-endian bytes. -/
def sha1pad (msg : List Nat) : List Nat :=
  msg ++ [128] ++ List.replicate ((119 - msg.length % 64) % 64) 0 ++
    beBytes 8 (msg.length * 8)

/-- SHA-1 message-schedule extension, run on the reversed word list:
each step prepends rotl1 of the xor of the words 3, 8, 14 and 16
back. -/
def sha1extendAux : Nat → List Nat → List Nat
  | 0, rw => rw
  | n + 1, rw =>
      sha1extendAux n
        (rotl 1 ((rw.getD 2 0) ^^^ (rw.getD 7 0) ^^^ (rw.getD 13 0) ^^^ (rw.getD 15 0)) :: rw)

/-- The SHA-1 round function for round `t`. -/
def sha1f (t b c d : Nat) : Nat :=
  if t < 20 then (b &&& c) ||| ((4294967295 ^^^ b) &&& d)
  else if t < 40 then b ^^^ c ^^^ d
  else if t < 60 then (b &&& c) ||| (b &&& d) ||| (c &&& d)
  else b ^^^ c ^^^ d

/-- The SHA-1 round constant for round `t`. -/
def sha1k (t : Nat) : Nat :=
  if t < 20 then 1518500249
  else if t < 40 then 1859775393
  else if t < 60 then 2400959708
  else 3395469782

/-- One SHA-1 compression round on the working state. -/
def sha1round (t : Nat) (st : Nat × Nat × Nat × Nat × Nat) (wt : Nat) :
    Nat × Nat × Nat × Nat × Nat :=
  let a := st.1
  let b := st.2.1
  let c := st.2.2.1
  let d := st.2.2.2.1
  let e := st.2.2.2.2
  (w32 (rotl 5 a + sha1f t b c d + e + sha1k t + wt), a, rotl 30 b, c, d)

/-- SHA-1 compression of one 64-byte block into the chaining state. -/
def sha1block (h : List Nat) (block : List Nat) : List Nat :=
  let w := (sha1extendAux 64 (bytesToWords block).reverse).reverse
  let h0 := h.getD 0 0
  let h1 := h.getD 1 0
  let h2 := h.getD 2 0
  let h3 := h.getD 3 0
  let h4 := h.getD 4 0
  let fin := (List.range 80).foldl
    (fun st t => sha1round t st (w.getD t 0)) (h0, h1, h2, h3, h4)
  [w32 (h0 + fin.1), w32 (h1 + fin.2.1), w32 (h2 + fin.2.2.1),
   w32 (h3 + fin.2.2.2.1), w32 (h4 + fin.2.2.2.2)]

/-- Folds `n` 64-byte blocks of `bytes` into the chaining state. -/
def sha1blocksGo : Nat → List Nat → List Nat → List Nat
  | 0, h, _ => h
  | n + 1, h, bytes => sha1blocksGo n (sha1block h (bytes.take 64)) (bytes.drop 64)

/-- SHA-1 of a byte list, as the 20-byte digest. -/
def sha1 (msg : List Nat) : List Nat :=
  let padded := sha1pad msg
  let h := sha1blocksGo (padded.length / 64)
    [1732584193, 4023233417, 2562383102, 271733878, 3285377520] padded
  (h.map (beBytes 4)).flatten

/-- The base64 alphabet. -/
def b64Alphabet : List Char :=
  "ABCDEFGHIJKLMNOPQRSTUVWXYZabcdefghijklmnopqrstuvwxyz0123456789+/".data

/-- The base64 digit for a 6-bit value. -/
def b64char (n : Nat) : Char := b64Alphabet.getD n '?'

/-- Standard base64 encoding with '=' padding. -/
def base64Encode : List Nat → String
  | a :: b :: c :: rest =>
      String.mk
        [b64char (a / 4), b64char ((a % 4) * 16 + b / 16),
         b64char ((b % 16) * 4 + c / 64), b64char (c % 64)] ++ base64Encode rest
  | [a, b] =>
      String.mk
        [b64char (a / 4), b64char ((a % 4) * 16 + b / 16),
         b64char ((b % 16) * 4), '=']
  | [a] =>
      String.mk [b64char (a / 4), b64char ((a % 4) * 16), '=', '=']
  | [] => ""

/-- Modelled from the spec: the server-side handshake implementation
is missing from the source tree (only the README documents it), so
the accept-token computation is taken from the spec and the README
snippet: SHA-1 of the key concatenated with the magic GUID, base64
encoded. -/
def handshakeAccept (key : String) : String :=
  base64Encode (sha1 (strBytes (key ++ magicGUID)))

/-! ## Theorems -/

/-- Round trip of the coordinate codec on the hundred board cells,
checked by evaluation. -/
theorem parseFormat_bounded : ∀ x : Nat, x < 10 → ∀ y : Nat, y < 10 →
    parseCoordinate (formatCoordinate x y) = some ⟨(x : Int), (y : Int)⟩ := by
  decide

/-- Round trip of the coordinate codec, stated over integers. -/
theorem parseFormat_int (x y : Int) (hx0 : 0 ≤ x) (hx9 : x ≤ 9)
    (hy0 : 0 ≤ y) (hy9 : y ≤ 9) :
    parseCoordinate (formatCoordinate x y) = some ⟨x, y⟩ := by
  obtain ⟨a, rfl⟩ := Int.eq_ofNat_of_zero_le hx0
  obtain ⟨b, rfl⟩ := Int.eq_ofNat_of_zero_le hy0
  exact parseFormat_bounded a (by omega) b (by omega)

set_option maxRecDepth 100000 in
/-- Sanity check of the modelled handshake computation against the
RFC 6455 example key and accept token. -/
theorem handshakeAccept_rfc6455_example :
    handshakeAccept "dGhlIHNhbXBsZSBub25jZQ==" = "s3pPLMBiTxaQ9kYGzzhZRbK+xOo=" := by
  decide

/-- C1: isValidPlacement accepts exactly the candidate lists whose
every cell is inside the N-by-N board and disjoint from every cell of
every already placed ship. -/
theorem isValidPlacement_iff (positions : List Pos)
    (existingShips : List PlacedShip) (N : Int) :
    isValidPlacement positions existingShips N = true ↔
      ((∀ p ∈ positions, 0 ≤ p.x ∧ p.x < N ∧ 0 ≤ p.y ∧ p.y < N) ∧
       ∀ s ∈ existingShips, ∀ q ∈ s.positions, ∀ p ∈ positions,
         ¬(q.x = p.x ∧ q.y = p.y)) := by
  unfold isValidPlacement
  split
  next hA =>
    apply iff_of_false (by simp)
    rintro ⟨hb, -⟩
    rw [List.any_eq_true] at hA
    obtain ⟨p, hp, hpf⟩ := hA
    have h1 := hb p hp
    simp only [Bool.or_eq_true, decide_eq_true_eq, ge_iff_le] at hpf
    omega
  next hA =>
    split
    next hB =>
      apply iff_of_false (by simp)
      rintro ⟨-, hc⟩
      rw [List.any_eq_true] at hB
      obtain ⟨s, hs, hsf⟩ := hB
      rw [List.any_eq_true] at hsf
      obtain ⟨q, hq, hqf⟩ := hsf
      rw [List.any_eq_true] at hqf
      obtain ⟨p, hp, hpf⟩ := hqf
      simp only [Bool.and_eq_true, decide_eq_true_eq] at hpf
      exact hc s hs q hq p hp hpf
    next hB =>
      apply iff_of_true rfl
      constructor
      · intro p hp
        by_contra hcon
        apply hA
        rw [List.any_eq_true]
        refine ⟨p, hp, ?_⟩
        simp only [Bool.or_eq_true, decide_eq_true_eq, ge_iff_le]
        omega
      · intro s hs q hq p hp hpf
        apply hB
        rw [List.any_eq_true]
        refine ⟨s, hs, ?_⟩
        rw [List.any_eq_true]
        refine ⟨q, hq, ?_⟩
        rw [List.any_eq_true]
        refine ⟨p, hp, ?_⟩
        simp only [Bool.and_eq_true, decide_eq_true_eq]
        exact hpf

/-- C2: evaluation of API.generateRandomPlacement at an attainable
outcome of its random draws (every coin flip horizontal, every
floored draw 0, board size 10): every draw is within the range
Math.floor(Math.random() * k) can produce, yet two ships with
different ids share a cell, violating the no-overlap board
invariant. -/
theorem generateRandomPlacement_overlapping_fleet :
    (∀ sc ∈ initialShips.zip badChoices, choiceInRange sc.1.length 10 sc.2) ∧
    ∃ s1 ∈ generateRandomPlacement badChoices,
      ∃ s2 ∈ generateRandomPlacement badChoices,
        s1.id ≠ s2.id ∧ ∃ p ∈ s1.positions, p ∈ s2.positions := by
  decide

/-- C3: the placement fleet is exactly five ships with the fixed type
tags and lengths 5, 4, 3, 3, 2, both in a fresh state and after any
resetPlacement, which clears only the placed flags. -/
theorem fleet_fixed (p : Placement) :
    initialShips.map (fun s => (s.type, s.length)) =
      [("AIRCRAFT_CARRIER", 5), ("BATTLESHIP", 4), ("CRUISER", 3),
       ("DESTROYER", 3), ("SUBMARINE", 2)] ∧
    initialShips.length = 5 ∧
    initialPlacement.ships = initialShips ∧
    (resetPlacement p).ships.map (fun s => (s.type, s.length)) =
      p.ships.map (fun s => (s.type, s.length)) := by
  refine ⟨by decide, by decide, rfl, ?_⟩
  simp only [resetPlacement, List.map_map]
  rfl

/-- C4 counterexample: the concrete attack request for cell (0, 0)
has no matchId field at all, and its coordinate field is the string
A1 rather than an object with numeric components. -/
theorem sendAttack_message_cex :
    lookupField "matchId" (sendAttackMsg "m1" "p1" (formatCoordinate 0 0)) = none ∧
    lookupField "coordinate" (sendAttackMsg "m1" "p1" (formatCoordinate 0 0)) =
      some "A1" := by
  decide

/-- C4 (amended): every attack request has type attack, names the
match in a gameId field (there is no matchId field), carries a
playerId, and carries the coordinate as the formatted string of the
zero-based cell, which parses back to exactly that cell. -/
theorem sendAttack_message_amended (matchId playerId : String) (x y : Int)
    (hx0 : 0 ≤ x) (hx9 : x ≤ 9) (hy0 : 0 ≤ y) (hy9 : y ≤ 9) :
    lookupField "type" (sendAttackMsg matchId playerId (formatCoordinate x y)) =
      some "attack" ∧
    lookupField "gameId" (sendAttackMsg matchId playerId (formatCoordinate x y)) =
      some matchId ∧
    lookupField "matchId" (sendAttackMsg matchId playerId (formatCoordinate x y)) =
      none ∧
    lookupField "playerId" (sendAttackMsg matchId playerId (formatCoordinate x y)) =
      some playerId ∧
    lookupField "coordinate" (sendAttackMsg matchId playerId (formatCoordinate x y)) =
      some (formatCoordinate x y) ∧
    parseCoordinate (formatCoordinate x y) = some ⟨x, y⟩ :=
  ⟨rfl, rfl, rfl, rfl, rfl, parseFormat_int x y hx0 hx9 hy0 hy9⟩

/-- C4 witness: the amended attack-message theorem applied at the
concrete request for cell (0, 0). -/
theorem sendAttack_message_amended_witness :
    ((0 : Int) ≤ 0 ∧ (0 : Int) ≤ 9) ∧
    (lookupField "type" (sendAttackMsg "m1" "p1" (formatCoordinate 0 0)) =
      some "attack" ∧
    lookupField "gameId" (sendAttackMsg "m1" "p1" (formatCoordinate 0 0)) =
      some "m1" ∧
    lookupField "matchId" (sendAttackMsg "m1" "p1" (formatCoordinate 0 0)) =
      none ∧
    lookupField "playerId" (sendAttackMsg "m1" "p1" (formatCoordinate 0 0)) =
      some "p1" ∧
    lookupField "coordinate" (sendAttackMsg "m1" "p1" (formatCoordinate 0 0)) =
      some (formatCoordinate 0 0) ∧
    parseCoordinate (formatCoordinate 0 0) = some ⟨0, 0⟩) :=
  ⟨⟨by decide, by decide⟩,
   sendAttack_message_amended "m1" "p1" 0 0 (by decide) (by decide)
     (by decide) (by decide)⟩

/-- C5 counterexample: the concrete join request has type join_game,
not join. -/
theorem findMatch_message_cex :
    lookupField "type" (findMatchMsg 0 "Ana") = some "join_game" ∧
    lookupField "type" (findMatchMsg 0 "Ana") ≠ some "join" := by
  decide

/-- C5 (amended): every join request has type join_game and carries
the generated playerId and the chosen player name. -/
theorem findMatchMsg_shape (now : Nat) (name : String) :
    lookupField "type" (findMatchMsg now name) = some "join_game" ∧
    lookupField "playerId" (findMatchMsg now name) =
      some ("player_" ++ toString now) ∧
    lookupField "playerName" (findMatchMsg now name) = some name :=
  ⟨rfl, rfl, rfl⟩

/-- C6: the board size is 10 and both freshly initialized boards are
10-by-10 grids whose every cell is the empty state. -/
theorem boards_initialized_empty :
    boardSize = 10 ∧
    initDefenseBoard.length = 10 ∧
    (∀ row ∈ initDefenseBoard, row.length = 10 ∧ ∀ c ∈ row, c = "empty") ∧
    initAttackBoard.length = 10 ∧
    (∀ row ∈ initAttackBoard, row.length = 10 ∧ ∀ c ∈ row, c = "empty") := by
  decide

/-- C7: for every handshake key, the modelled accept-token
computation equals base64 of SHA-1 of the key followed by the magic
GUID 258EAFA5-E914-47DA-95CA-C5AB0DC85B11. -/
theorem handshakeAccept_spec (k : String) :
    handshakeAccept k = base64Encode (sha1 (strBytes k ++ strBytes magicGUID)) := by
  have h : strBytes (k ++ magicGUID) = strBytes k ++ strBytes magicGUID := by
    unfold strBytes
    rw [String.data_append, List.map_append]
  rw [handshakeAccept, h]

/-- C8: the coordinate codec round-trips: for zero-based integer
cells with both components in 0..9, parseCoordinate inverts
formatCoordinate exactly. -/
theorem parseCoordinate_formatCoordinate (x y : Int) (hx0 : 0 ≤ x)
    (hx9 : x ≤ 9) (hy0 : 0 ≤ y) (hy9 : y ≤ 9) :
    parseCoordinate (formatCoordinate x y) = some ⟨x, y⟩ :=
  parseFormat_int x y hx0 hx9 hy0 hy9

/-- C8 witness: the round trip at the concrete cell (3, 7). -/
theorem parseCoordinate_formatCoordinate_witness :
    ((0 : Int) ≤ 3 ∧ (3 : Int) ≤ 9 ∧ (0 : Int) ≤ 7 ∧ (7 : Int) ≤ 9) ∧
    parseCoordinate (formatCoordinate 3 7) = some ⟨3, 7⟩ :=
  ⟨⟨by decide, by decide, by decide, by decide⟩,
   parseCoordinate_formatCoordinate 3 7 (by decide) (by decide)
     (by decide) (by decide)⟩

/-- C9: the two source copies of calculateShipPositions agree on
every input, and both return the cells (startX+i, startY) for
i = 0..length-1 when the orientation is horizontal and
(startX, startY+i) otherwise. -/
theorem calculateShipPositions_copies (startX startY : Int) (length : Nat)
    (orientation : String) :
    Main.calculateShipPositions startX startY length orientation =
      Game.calculateShipPositions startX startY length orientation ∧
    Main.calculateShipPositions startX startY length orientation =
      (if orientation = "horizontal" then
        (List.range length).map (fun i => ⟨startX + (i : Int), startY⟩)
      else
        (List.range length).map (fun i => ⟨startX, startY + (i : Int)⟩)) := by
  refine ⟨rfl, ?_⟩
  by_cases h : orientation = "horizontal"
  · rw [if_pos h]
    unfold Main.calculateShipPositions
    apply List.map_congr_left
    intro i _
    rw [if_pos h]
  · rw [if_neg h]
    unfold Main.calculateShipPositions
    apply List.map_congr_left
    intro i _
    rw [if_neg h]

/-- C10: on a state whose orientation is horizontal or vertical,
rotateShip toggles the orientation between the two, leaves the
selection, the placed ships and the fleet untouched, and applied
twice restores the state exactly. -/
theorem rotateShip_involution (p : Placement)
    (h : p.orientation = "horizontal" ∨ p.orientation = "vertical") :
    rotateShip (rotateShip p) = p ∧
    (p.orientation = "horizontal" → (rotateShip p).orientation = "vertical") ∧
    (p.orientation = "vertical" → (rotateShip p).orientation = "horizontal") ∧
    (rotateShip p).selectedShip = p.selectedShip ∧
    (rotateShip p).placedShips = p.placedShips ∧
    (rotateShip p).ships = p.ships := by
  obtain ⟨sel, ori, pl, sh⟩ := p
  rcases h with h | h <;> subst h <;> simp [rotateShip]

/-- C10 witness: the rotation theorem applied at the fresh placement
state, whose orientation is horizontal. -/
theorem rotateShip_involution_witness :
    (initialPlacement.orientation = "horizontal" ∨
      initialPlacement.orientation = "vertical") ∧
    (rotateShip (rotateShip initialPlacement) = initialPlacement ∧
    (initialPlacement.orientation = "horizontal" →
      (rotateShip initialPlacement).orientation = "vertical") ∧
    (initialPlacement.orientation = "vertical" →
      (rotateShip initialPlacement).orientation = "horizontal") ∧
    (rotateShip initialPlacement).selectedShip = initialPlacement.selectedShip ∧
    (rotateShip initialPlacement).placedShips = initialPlacement.placedShips ∧
    (rotateShip initialPlacement).ships = initialPlacement.ships) :=
  ⟨Or.inl rfl, rotateShip_involution initialPlacement (Or.inl rfl)⟩
